import Mathlib

/-!
A shallow embedding of the multirunner orchestration layer:
`multirunner/runner.py` (supervisor), `multirunner/utils.py` (signal
bookkeeping) and `multirunner/handlers/python.py` (the Python worker side
of the wire protocol).

Conventions of the embedding:
* Python dicts keyed by a stdout file descriptor become association lists
  `List (Nat × Worker)`; `del d[fn]` becomes a key filter (dict keys are
  unique, so deleting a key removes every entry holding that key).
* The lazy `data_stream` iterator becomes a `List String`; `next` pulls
  the head, and `itertools.chain([val], it)` is consing the value back on.
* External I/O outcomes that the code branches on (the text a worker wrote
  during the handshake, whether a `write` to a worker stdin raises, whether
  `json.loads` succeeds) are explicit inputs of the embedded functions.
* Killing a child process is recorded as a `Kill` effect (which process,
  hard or soft, whether the parent waits) rather than performed.
-/

namespace Multirunner

/-- Minimal JSON value model, enough for the structured error payloads
(objects with string fields) the supervisor builds and returns. -/
inductive Json where
  | null
  | str (s : String)
  | int (n : Int)
  | obj (fields : List (String × Json))

/-- A child worker process handle: its pid and the file descriptor of its
stdout pipe (the key `fn = proc.stdout.fileno()` used for the maps). -/
structure Worker where
  pid : Nat
  fd : Nat
deriving DecidableEq

/-- The two termination modes of `JobRunner.kill_process`: soft sends
SIGINT, hard calls `proc.terminate()`. -/
inductive KillMode where
  | soft
  | hard
deriving DecidableEq

/-- Record of one `kill_process` call: the process, the mode, and whether
the caller waited on it. -/
structure Kill where
  w : Worker
  mode : KillMode
  wait : Bool
deriving DecidableEq

/-- Python `str.strip()` on a line: drop leading and trailing whitespace. -/
def pyStrip (s : String) : String :=
  ((s.data.dropWhile Char.isWhitespace).reverse.dropWhile Char.isWhitespace).reverse.asString

/-- The handshake test of `create_process` (runner.py:46-50):
`ok = popen.stdout.readline()`, then `ok.strip().upper()`, then
`encode('ascii', 'ignore')` (drop non-ASCII), then compare with `b'OK'`. -/
def handshakeOk (line : String) : Bool :=
  (((pyStrip line).data.map Char.toUpper).filter (fun c => c.toNat < 128)).asString = "OK"

/-- What the freshly spawned worker wrote during the handshake: the first
stdout line read by `readline`, and the rest of stdout and stderr drained
by `read()` on the failure path. -/
structure HandshakeLines where
  firstLine : String
  restOut : String
  restErr : String

/-- The drained failure payload (runner.py:57):
`err = popen.stdout.read() + popen.stderr.read()`. -/
def drained (l : HandshakeLines) : String :=
  l.restOut ++ l.restErr

/-- One spawn attempt, as the supervisor sees it: what the child wrote
during the handshake, the popen handle, and the outcome of `json.loads`
applied to the drained failure payload (`some v` when the payload is valid
JSON parsing to `v`, `none` when `json.loads` raises). -/
structure SpawnAttempt where
  lines : HandshakeLines
  w : Worker
  parsed : Option Json

/-- Result of module-level `create_process` (runner.py:20-59): either
`(True, popen)` or, after draining and terminating the child,
`(False, err)` with the drained text. -/
inductive HandshakeResult where
  | ok (w : Worker)
  | fail (err : String)

/-- Module-level `create_process`, from the first `readline` on
(runner.py:46-59).  The spawn itself and the spec write are outside the
claims' scope; the handshake branch is modelled exactly. -/
def create_process (a : SpawnAttempt) : HandshakeResult :=
  if handshakeOk a.lines.firstLine then .ok a.w
  else .fail (drained a.lines)

/-- Outcome of the spawn loop of `JobRunner.setup` (runner.py:259-291):
the returned pair `(success, err)`, the worker and stream maps after the
loop, the `terminate(soft=False)` kills issued on the abort path, and how
many spawn attempts were consumed. -/
structure SetupOutcome where
  success : Bool
  err : Option Json
  procs : List (Nat × Worker)
  streams : List (Nat × Nat)
  killed : List Kill
  attempts : Nat

/-- The spawn loop of `JobRunner.setup` (runner.py:259-291).
For each attempt: on handshake success the worker is registered in both
maps under its stdout fd; on the first failure the loop breaks, the
drained payload is passed to `json.loads` — on parse success the result is
bound to the local `proc` and `err` is never assigned (so `None` is
returned), on parse failure `err` becomes the
`(stack, when = decoding error (raw provided))` object — every
already-registered worker is terminated hard (`terminate(soft=False)`,
no wait), and both maps are reset to empty. -/
def setupLoop : List SpawnAttempt → List (Nat × Worker) → List (Nat × Nat) → Nat → SetupOutcome
  | [], procs, streams, k =>
      { success := true, err := none, procs := procs, streams := streams,
        killed := [], attempts := k }
  | a :: rest, procs, streams, k =>
      match create_process a with
      | .ok w =>
          setupLoop rest (procs ++ [(w.fd, w)]) (streams ++ [(w.fd, w.fd)]) (k + 1)
      | .fail payload =>
          let err : Option Json :=
            match a.parsed with
            | some _ => none
            | none =>
                some (.obj [("stack", .str payload),
                            ("when", .str "decoding error (raw provided)")])
          { success := false, err := err, procs := [], streams := [],
            killed := procs.map (fun p => Kill.mk p.2 .hard false),
            attempts := k + 1 }

/-- The spawn phase of `JobRunner.setup`, started with empty maps.  The
`exec_type`/`exec_info` resolution preceding it returns before any worker
exists and is outside the claims modelled here. -/
def setup (attempts : List SpawnAttempt) : SetupOutcome :=
  setupLoop attempts [] [] 0

/-- Python 3 `round()` (round half to even), on exact rationals. -/
def pyRound (q : ℚ) : ℤ :=
  let f := ⌊q⌋
  let r := q - (f : ℚ)
  if r < 1 / 2 then f
  else if 1 / 2 < r then f + 1
  else if f % 2 = 0 then f else f + 1

/-- The optional resource estimates read from the job spec by
`JobRunner.n_procs` (runner.py:187-188). -/
structure SpecEstimates where
  memory_estimate : Option ℚ
  cpu_estimate : Option ℚ

/-- `JobRunner.n_procs` (runner.py:183-193): the explicit count when one
was passed, else `max(min(round(memory_lim / memory_estimate),
round(cpu_lim / cpu_estimate)), 1)` with defaults 64 MiB and 1. -/
def n_procs (explicitN : Option ℤ) (sp : SpecEstimates) (memory_lim cpu_lim : ℚ) : ℤ :=
  match explicitN with
  | some n => n
  | none =>
      let me := sp.memory_estimate.getD (64 * 1024 ^ 2)
      let ce := sp.cpu_estimate.getD 1
      let m := pyRound (memory_lim / me)
      let c := pyRound (cpu_lim / ce)
      max (min m c) 1

/-- `JobRunner.write_line` (runner.py:340-345): append exactly one trailing
newline when the record does not already end in one, then write. -/
def write_line (item : String) : String :=
  if item.data.getLast? = some '\n' then item else item ++ "\n"

/-- Outcome of `JobRunner.seed` (runner.py:362-373), carrying the state of
the data stream afterwards: `exhausted` models the `StopIteration` branch
(returns False), `wrote v rest` the successful write (returns True), and
`raised` the branch where the write raised — the pulled value is chained
back onto the head of the stream and the exception propagates. -/
inductive SeedOutcome where
  | exhausted (rest : List String)
  | wrote (v : String) (rest : List String)
  | raised (rest : List String)
deriving DecidableEq

/-- `JobRunner.seed`: pull the next record, try to write it (through
`write_line`); `wf` tells which written strings make the write raise. -/
def seed (wf : String → Bool) : List String → SeedOutcome
  | [] => .exhausted []
  | v :: rest => if wf (write_line v) then .raised (v :: rest) else .wrote v rest

/-- A write oracle under which no write to a worker stdin ever raises. -/
def noFail : String → Bool :=
  fun _ => false

/-- The supervisor state threaded through the main loop: the two fd-keyed
maps, the data stream, the SIGINT count from `signals_recvd`, the
`create` (replace-on-death) flag, the `items_processed` counter, and the
`running` flag plus liveness of the monitoring thread. -/
structure LoopState where
  procs : List (Nat × Worker)
  streams : List (Nat × Nat)
  dataStream : List String
  sigintCount : Nat
  create : Bool
  itemsProcessed : Nat
  running : Bool
  monitorAlive : Bool
deriving DecidableEq

/-- Dict lookup `d[fn]` on an fd-keyed association list. -/
def lookupKey {α : Type} (fn : Nat) : List (Nat × α) → Option α
  | [] => none
  | p :: rest => if p.1 = fn then some p.2 else lookupKey fn rest

/-- Dict deletion `del d[fn]`: dict keys are unique, so deleting the key
removes every entry holding it. -/
def eraseKey {α : Type} (fn : Nat) (m : List (Nat × α)) : List (Nat × α) :=
  m.filter (fun p => p.1 != fn)

/-- Effects of one `JobRunner.handle_stream` call (runner.py:310-318):
the line read (returned even when empty), the record written to the
worker during the re-seed if any, whether the source-exhausted branch
closed stdin and killed the worker, whether the seed write raised (the
exception then propagates before `return out`), and the state after. -/
structure HSOut where
  out : String
  wrote : Option String
  stdinClosed : Bool
  killed : List Kill
  raisedBP : Bool
  post : LoopState
deriving DecidableEq

/-- `JobRunner.handle_stream`: read one line from the ready stream, then
re-seed the same worker before the caller ever looks at the line.  `none`
models the `KeyError` on an fd absent from the map (unreachable from the
ready set). -/
def handle_stream (readResult : String) (fn : Nat) (wf : String → Bool)
    (st : LoopState) : Option HSOut :=
  match lookupKey fn st.procs with
  | none => none
  | some proc =>
      match seed wf st.dataStream with
      | .exhausted rest =>
          some { out := readResult, wrote := none, stdinClosed := true,
                 killed := [⟨proc, .hard, true⟩], raisedBP := false,
                 post := { st with
                           dataStream := rest,
                           procs := eraseKey fn st.procs,
                           streams := eraseKey fn st.streams } }
      | .raised rest =>
          some { out := readResult, wrote := none, stdinClosed := false,
                 killed := [], raisedBP := true,
                 post := { st with dataStream := rest } }
      | .wrote v rest =>
          some { out := readResult, wrote := some v, stdinClosed := false,
                 killed := [], raisedBP := false,
                 post := { st with dataStream := rest } }

/-- Effects of one `JobRunner.handle_broken_stream` call
(runner.py:320-338): which processes were killed, whether a replacement
spawn was attempted and inserted, whether the replacement's seed write
raised (propagating out of the loop), and the state after. -/
structure BrokenOut where
  killed : List Kill
  spawnAttempted : Bool
  replacementInserted : Bool
  raisedAgain : Bool
  post : LoopState

/-- `JobRunner.handle_broken_stream`: kill the broken worker hard with
wait and drop it from both maps; if any SIGINT was received or `create`
is off, stop there; otherwise attempt one replacement spawn, seeding it
on success and tearing it down when the source is exhausted, and switch
`create` off when the spawn fails. -/
def handle_broken_stream (fn : Nat) (sp : SpawnAttempt) (wf : String → Bool)
    (st : LoopState) : Option BrokenOut :=
  match lookupKey fn st.procs with
  | none => none
  | some proc =>
      let st1 := { st with
                   procs := eraseKey fn st.procs,
                   streams := eraseKey fn st.streams }
      if 0 < st1.sigintCount ∨ st1.create = false then
        some { killed := [⟨proc, .hard, true⟩], spawnAttempted := false,
               replacementInserted := false, raisedAgain := false, post := st1 }
      else
        match create_process sp with
        | .fail _ =>
            some { killed := [⟨proc, .hard, true⟩], spawnAttempted := true,
                   replacementInserted := false, raisedAgain := false,
                   post := { st1 with create := false } }
        | .ok w =>
            match seed wf st1.dataStream with
            | .exhausted rest =>
                some { killed := [⟨proc, .hard, true⟩, ⟨w, .hard, true⟩],
                       spawnAttempted := true, replacementInserted := false,
                       raisedAgain := false,
                       post := { st1 with dataStream := rest } }
            | .raised rest =>
                some { killed := [⟨proc, .hard, true⟩], spawnAttempted := true,
                       replacementInserted := false, raisedAgain := true,
                       post := { st1 with dataStream := rest } }
            | .wrote _ rest =>
                some { killed := [⟨proc, .hard, true⟩], spawnAttempted := true,
                       replacementInserted := true, raisedAgain := false,
                       post := { st1 with
                                 dataStream := rest,
                                 procs := st1.procs ++ [(w.fd, w)],
                                 streams := st1.streams ++ [(w.fd, w.fd)] } }

/-- Result of one pass over the ready set in `JobRunner.loop`
(runner.py:347-359): the lines yielded (only non-empty reads are), the
state after, and whether an exception other than the caught
`BrokenPipeError` escaped the loop. -/
structure LoopOut where
  yields : List String
  post : LoopState
  escaped : Bool

/-- The body of `JobRunner.loop` over the ready streams, each given with
the line its `readline` returns: call `handle_stream`, yield the returned
line only when it is non-empty, and divert to `handle_broken_stream` when
the seed write raised a broken pipe. -/
def loopBody (wf : String → Bool) (sp : SpawnAttempt) :
    List (Nat × String) → LoopState → LoopOut
  | [], st => { yields := [], post := st, escaped := false }
  | (fn, rd) :: rest, st =>
      match handle_stream rd fn wf st with
      | none => loopBody wf sp rest st
      | some hs =>
          if hs.raisedBP then
            match handle_broken_stream fn sp wf hs.post with
            | none => loopBody wf sp rest hs.post
            | some b =>
                if b.raisedAgain then { yields := [], post := b.post, escaped := true }
                else loopBody wf sp rest b.post
          else
            let r := loopBody wf sp rest hs.post
            if hs.out = "" then r
            else { yields := hs.out :: r.yields, post := r.post, escaped := r.escaped }

/-- The consumer side of `JobRunner.gen` (runner.py:427-435):
`items_processed` grows by one per yielded item, and only per yielded
item. -/
def genCount (l : LoopOut) : LoopState :=
  { l.post with itemsProcessed := l.post.itemsProcessed + l.yields.length }

/-- Effects of `JobRunner.seed_procs` (runner.py:375-391): which worker
got which record (in map order), the kills of the surplus workers, and
the state after. -/
structure SeedProcsOut where
  assignments : List (Worker × String)
  killed : List Kill
  post : LoopState

/-- The seeding pass of `seed_procs`: seed the workers in map order until
`seed` returns False, recording each (worker, record) pair; `none` models
a write raising out of the pass.  Returns the pairs and the remaining
stream. -/
def seedProcsLoop (wf : String → Bool) :
    List Worker → List String → Option (List (Worker × String) × List String)
  | [], s => some ([], s)
  | w :: ws, s =>
      match seed wf s with
      | .exhausted s1 => some ([], s1)
      | .raised _ => none
      | .wrote v s1 =>
          match seedProcsLoop wf ws s1 with
          | none => none
          | some (as, s2) => some ((w, v) :: as, s2)

/-- `JobRunner.seed_procs`: seed in map order; then with
`remaining = len(vals) - max_ind - 1` positive, kill the last `remaining`
workers hard with wait and delete them from both maps. -/
def seed_procs (wf : String → Bool) (st : LoopState) : Option SeedProcsOut :=
  let vals := st.procs.map Prod.snd
  match seedProcsLoop wf vals st.dataStream with
  | none => none
  | some (as, s1) =>
      let remaining := vals.length - as.length
      if 0 < remaining then
        let doomed := vals.drop as.length
        let fds := doomed.map Worker.fd
        some { assignments := as,
               killed := doomed.map (fun w => Kill.mk w .hard true),
               post := { st with
                         dataStream := s1,
                         procs := st.procs.filter (fun p => !(fds.contains p.1)),
                         streams := st.streams.filter (fun p => !(fds.contains p.1)) } }
      else
        some { assignments := as, killed := [],
               post := { st with dataStream := s1 } }

/-- The bookkeeping of the `signal_handler` decorator (utils.py:33-42):
with `store` (the default) the per-signal received count grows by one
before the wrapped handler runs. -/
def signal_handler_count (prev : Nat) (store : Bool) : Nat :=
  if store then prev + 1 else prev

/-- Trace of one `JobRunner.kill_monitoring_thread` call
(runner.py:418-425): the `running` flag is saved, set to False inside the
`try`, the thread is joined only when `wait` is passed, and the `finally`
restores the saved value. -/
structure KillMonitorTrace where
  setFalse : Bool
  joined : Bool
  runningAfter : Bool
deriving DecidableEq

/-- `JobRunner.kill_monitoring_thread`: its net effect on the `running`
flag and whether it joined the monitor thread. -/
def kill_monitoring_thread (running : Bool) (wait : Bool) : KillMonitorTrace :=
  { setFalse := true, joined := wait, runningAfter := running }

/-- The guard of `JobRunner.monitor`'s sampling loop (runner.py:397-408):
another sample is taken exactly when `self.running` reads true. -/
def monitorTakesSample (running : Bool) : Bool :=
  running

/-- Effects of one `JobRunner.handle_sigint` delivery (runner.py:297-308),
already wrapped by `signal_handler`: the updated SIGINT count, the
`terminate(soft=False)` kills when the count exceeds one, the
`kill_monitoring_thread()` trace when the monitor thread is alive, the
`running` flag after the handler, the unconditionally raised
`KeyboardInterrupt`, and the state after. -/
structure SigintOut where
  sigintCount : Nat
  killed : List Kill
  monitorKill : Option KillMonitorTrace
  runningAfter : Bool
  raisedKI : Bool
  post : LoopState
deriving DecidableEq

/-- `JobRunner.handle_sigint` under the `signal_handler` decorator with
`store = True` (how the interpreter delivers it). -/
def handle_sigint (st : LoopState) : SigintOut :=
  let n := signal_handler_count st.sigintCount true
  let killed :=
    if 1 < n then st.procs.map (fun p => Kill.mk p.2 .hard false) else []
  let mk :=
    if st.monitorAlive then some (kill_monitoring_thread st.running false)
    else none
  let runningAfter :=
    match mk with
    | some t => t.runningAfter
    | none => st.running
  { sigintCount := n, killed := killed, monitorKill := mk,
    runningAfter := runningAfter, raisedKI := true,
    post := { st with sigintCount := n, running := runningAfter } }

/-- How the body of the `run` context manager ended: the iteration ran to
completion, a `KeyboardInterrupt` reached it, or some other exception
did. -/
inductive BodyOutcome where
  | normal
  | interrupted
  | error

/-- The exception re-raised out of `run`, when any. -/
inductive RunError where
  | keyboardInterrupt
  | other
deriving DecidableEq

/-- Effects of the exit path of `JobRunner.run` (runner.py:437-465): the
`terminate(soft=False, wait=True)` kills, the reset maps, whether the
saved SIGINT handler was restored, the `kill_monitoring_thread(wait=True)`
trace and the clearing of the thread handle, and the propagated
exception. -/
structure RunExit where
  killed : List Kill
  procsAfter : List (Nat × Worker)
  streamsAfter : List (Nat × Nat)
  sigintRestored : Bool
  monitorKill : Option KillMonitorTrace
  monitorCleared : Bool
  raised : Option RunError

/-- The `finally` block of `JobRunner.run`: terminate every remaining
worker hard and wait, reset both maps to empty, restore the saved SIGINT
handler when it was swapped, and stop and join the monitoring thread when
monitoring was on. -/
def run_finally (st : LoopState) (swap monitorOn : Bool) : RunExit :=
  { killed := st.procs.map (fun p => Kill.mk p.2 .hard true),
    procsAfter := [], streamsAfter := [],
    sigintRestored := swap,
    monitorKill :=
      if monitorOn then some (kill_monitoring_thread st.running true) else none,
    monitorCleared := monitorOn,
    raised := none }

/-- `JobRunner.run`: whichever way the body ends, the same `finally`
block runs; the body's exception, when any, propagates afterwards. -/
def run (st : LoopState) (outcome : BodyOutcome) (swap monitorOn : Bool) : RunExit :=
  match outcome with
  | .normal => run_finally st swap monitorOn
  | .interrupted =>
      { run_finally st swap monitorOn with raised := some .keyboardInterrupt }
  | .error =>
      { run_finally st swap monitorOn with raised := some .other }

/-- One steady-state item on the worker side
(handlers/python.py:143-166), as `handle_item` observes it: the raw input
line, whether `json.loads(item)` succeeded, whether the user handler
raised, the result of `int(code)` on its return value (`none` when the
coercion raises), what the handler wrote to the captured stdout and
stderr, and the traceback text printed on the failure paths. -/
structure HandlerCall where
  item : String
  parseOk : Bool
  raises : Bool
  intCoerce : Option Int
  out : String
  err : String
  tb : String
deriving DecidableEq

/-- The result object built by `handle_item`: a dict with exactly the
keys data, exit, stdout, stderr. -/
structure ResultRecord where
  data : String
  exit : Int
  stdout : String
  stderr : String
deriving DecidableEq

/-- The dict literal of handle_item, as (key, value) pairs. -/
def ResultRecord.toObj (r : ResultRecord) : List (String × Json) :=
  [("data", .str r.data), ("exit", .int r.exit),
   ("stdout", .str r.stdout), ("stderr", .str r.stderr)]

/-- `handle_item`: under output capture, parse the line and call the
handler; `exit` is 1 when the call (or the parse) raised — the traceback
is printed to the captured stderr — or else the integer coercion of the
return value, defaulting to 0 when `int(code)` raises. -/
def handle_item (c : HandlerCall) : ResultRecord :=
  if c.parseOk then
    if c.raises then
      { data := c.item, exit := 1, stdout := c.out, stderr := c.err ++ c.tb }
    else
      { data := c.item, exit := c.intCoerce.getD 0, stdout := c.out, stderr := c.err }
  else
    { data := c.item, exit := 1, stdout := "", stderr := c.tb }

/-- The steady-state loop of the worker `main`
(handlers/python.py:187-191): one `handle_item` call and one printed
result line per input line; `handle_item` always returns a dict, so the
`if val is None: break` guard never fires. -/
def mainSteady (cs : List HandlerCall) : List ResultRecord :=
  cs.map handle_item

/-! Concrete instances used to evaluate the embedded functions. -/

/-- A handshake transcript of a worker whose setup failed: the first line
is the worker's `ERROR`, and the drained remainder is the single JSON
line the worker printed, which `json.loads` parses. -/
def c1Lines : HandshakeLines :=
  { firstLine := "ERROR",
    restOut := "\x7b\"stack\": \"boom\", \"when\": \"loading spec\"\x7d",
    restErr := "" }

/-- The value `json.loads` produces from `c1Lines`'s drained payload. -/
def c1Parsed : Json :=
  .obj [("stack", .str "boom"), ("when", .str "loading spec")]

/-- A failed spawn whose drained payload is valid JSON. -/
def c1Attempt : SpawnAttempt :=
  { lines := c1Lines, w := ⟨101, 4⟩, parsed := some c1Parsed }

/-- A failed spawn whose drained payload is not valid JSON
(`json.loads` raises). -/
def c1RawAttempt : SpawnAttempt :=
  { lines := { firstLine := "ERROR", restOut := "spawn blew up", restErr := "" },
    w := ⟨102, 5⟩, parsed := none }

/-- A clean handshake transcript: the worker answered `ok` (matched
case-insensitively after trim). -/
def okLines : HandshakeLines :=
  { firstLine := "ok\n", restOut := "", restErr := "" }

/-- The first worker spawned in the C4 scenario. -/
def c4Worker : Worker :=
  ⟨7, 3⟩

/-- C4 scenario: first spawn succeeds. -/
def c4Ok : SpawnAttempt :=
  { lines := okLines, w := c4Worker, parsed := none }

/-- C4 scenario: second spawn fails, with a JSON-parseable drained
payload. -/
def c4Fail : SpawnAttempt :=
  { lines := c1Lines, w := ⟨8, 5⟩, parsed := some c1Parsed }

/-- C4 scenario: a third spawn that setup never reaches. -/
def c4Spare : SpawnAttempt :=
  { lines := okLines, w := ⟨9, 6⟩, parsed := none }

/-- A supervisor state in which one SIGINT has already been received. -/
def c7St : LoopState :=
  { procs := [(3, ⟨41, 3⟩)], streams := [(3, 3)], dataStream := ["r1"],
    sigintCount := 1, create := true, itemsProcessed := 0,
    running := true, monitorAlive := false }

/-- A replacement-spawn attempt that would succeed, were it tried. -/
def c7Spawn : SpawnAttempt :=
  { lines := okLines, w := ⟨21, 9⟩, parsed := none }

/-- A running supervisor, monitor thread alive, just before the first
SIGINT. -/
def c8St : LoopState :=
  { procs := [(3, ⟨42, 3⟩)], streams := [(3, 3)], dataStream := [],
    sigintCount := 0, create := true, itemsProcessed := 0,
    running := true, monitorAlive := true }

/-- Three live workers and a single remaining input record. -/
def c6St : LoopState :=
  { procs := [(3, ⟨31, 3⟩), (4, ⟨32, 4⟩), (5, ⟨33, 5⟩)],
    streams := [(3, 3), (4, 4), (5, 5)], dataStream := ["only"],
    sigintCount := 0, create := true, itemsProcessed := 0,
    running := true, monitorAlive := false }

/-- A supervisor mid-run: one live worker, two records left, five items
already processed. -/
def c10St : LoopState :=
  { procs := [(3, ⟨31, 3⟩)], streams := [(3, 3)],
    dataStream := ["rec1", "rec2"], sigintCount := 0, create := true,
    itemsProcessed := 5, running := true, monitorAlive := false }

/-- A spawn attempt for broken-stream handling in the C10 scenario. -/
def c10Spawn : SpawnAttempt :=
  { lines := okLines, w := ⟨22, 8⟩, parsed := none }

/-- A handler call that returns a value coercible to 7. -/
def c2Ret : HandlerCall :=
  { item := "\x7b\"v\": 1\x7d\n", parseOk := true, raises := false,
    intCoerce := some 7, out := "1\n", err := "", tb := "" }

/-- A handler call that raises after writing to both streams. -/
def c2Raise : HandlerCall :=
  { item := "\x7b\"bad\": true\x7d\n", parseOk := true, raises := true,
    intCoerce := none, out := "partial", err := "warn ",
    tb := "Traceback: boom" }

/-- A handler call returning a value `int()` cannot coerce. -/
def c2NonInt : HandlerCall :=
  { item := "\x7b\"v\": 2\x7d\n", parseOk := true, raises := false,
    intCoerce := none, out := "", err := "", tb := "" }

/-- The three-record steady-state input of the C2 scenario. -/
def c2List : List HandlerCall :=
  [c2Ret, c2Raise, c2NonInt]

/-! Theorems. -/

/-- Under the no-failure write oracle, the seeding pass pairs the workers
with the records positionally and consumes one record per worker. -/
theorem seedProcsLoop_noFail (ws : List Worker) (s : List String) :
    seedProcsLoop noFail ws s = some (ws.zip s, s.drop ws.length) := by
  induction ws generalizing s with
  | nil => simp [seedProcsLoop]
  | cons w ws ih =>
      cases s with
      | nil => simp [seedProcsLoop, seed]
      | cons v s => simp [seedProcsLoop, seed, noFail, ih]

/-- Rounding an integer value returns it unchanged. -/
theorem pyRound_intCast (z : ℤ) : pyRound ((z : ℚ)) = z := by
  norm_num [pyRound]

/-- Looking up a key that was filtered out of an fd-keyed map finds
nothing. -/
theorem lookupKey_filter_of_contains {α : Type} (fds : List Nat) (x : Nat)
    (l : List (Nat × α)) (hx : fds.contains x = true) :
    lookupKey x (l.filter (fun p => !(fds.contains p.1))) = none := by
  induction l with
  | nil => rfl
  | cons p l ih =>
      by_cases h : fds.contains p.1 = true
      · simp only [List.filter, h, Bool.not_true, ih]
      · have hne : p.1 ≠ x := by
          intro he
          rw [he] at h
          exact h hx
        simp only [List.filter, Bool.not_eq_true] at h
        simp only [List.filter, h, Bool.not_false, lookupKey, if_neg hne, ih]

/-- C1: during the worker handshake, a first stdout line other than OK
(case-insensitive, after trim) makes setup fail with the drained
stdout+stderr text as payload — but `JobRunner.setup` binds the result of
`json.loads` on that payload to the local `proc` and never to `err`, so
whenever the drained text parses as JSON the returned error payload is
`None` rather than the claimed non-null (stack, when) object; only a
payload that fails to parse is wrapped as
(stack = raw text, when = decoding error (raw provided)). -/
theorem C1_handshake_failure_payload :
    create_process c1Attempt =
      .fail "\x7b\"stack\": \"boom\", \"when\": \"loading spec\"\x7d" ∧
    setup [c1Attempt] =
      { success := false, err := none, procs := [], streams := [],
        killed := [], attempts := 1 } ∧
    setup [c1RawAttempt] =
      { success := false,
        err := some (.obj [("stack", .str "spawn blew up"),
                           ("when", .str "decoding error (raw provided)")]),
        procs := [], streams := [], killed := [], attempts := 1 } :=
  ⟨rfl, rfl, rfl⟩

/-- C3: the pool sizer returns the explicit worker count when one was
passed, and otherwise
max(1, min(round(memory_lim / memory_estimate), round(cpu_lim / cpu_estimate)))
with memory_estimate defaulting to 64 MiB and cpu_estimate to 1; in
particular 256 MiB estimate, 1 GiB limit, cpu estimate 1, cpu limit 8 and
no explicit count give 4. -/
theorem C3_pool_sizing :
    (∀ (n : ℤ) (sp : SpecEstimates) (ml cl : ℚ), n_procs (some n) sp ml cl = n) ∧
    (∀ (sp : SpecEstimates) (ml cl : ℚ),
      n_procs none sp ml cl =
        max 1 (min (pyRound (ml / sp.memory_estimate.getD (64 * 1024 ^ 2)))
                   (pyRound (cl / sp.cpu_estimate.getD 1)))) ∧
    n_procs none { memory_estimate := some (256 * 1024 ^ 2), cpu_estimate := some 1 }
      (1024 ^ 3) 8 = 4 := by
  refine ⟨fun n sp ml cl => rfl, fun sp ml cl => ?_, ?_⟩
  · simp only [n_procs]
    exact max_comm _ _
  · simp only [n_procs, Option.getD]
    rw [show ((1024 : ℚ) ^ 3) / (256 * 1024 ^ 2) = ((4 : ℤ) : ℚ) by norm_num,
        show ((8 : ℚ)) / 1 = ((8 : ℤ) : ℚ) by norm_num,
        pyRound_intCast, pyRound_intCast]
    norm_num

/-- C4: a spawn failure during setup aborts it — the already-spawned
workers are hard-terminated, the worker and stream maps are left empty,
no further spawn is attempted (only 2 of the 3 available attempts are
consumed) — but, the failure payload being JSON-parseable, setup returns
(False, None) instead of carrying the originating payload, because the
parsed payload is bound to the local `proc` and `err` is never set. -/
theorem C4_spawn_failure_aborts :
    setup [c4Ok, c4Fail, c4Spare] =
      { success := false, err := none, procs := [], streams := [],
        killed := [Kill.mk c4Worker .hard false], attempts := 2 } :=
  rfl

/-- C5: if seeding pulls the next record and the write to the worker's
stdin raises, that exact record is chained back onto the head of the
source — the stream is left unchanged, and a subsequent pull (one whose
write succeeds) returns exactly that record; no element is lost. -/
theorem C5_seed_pushback (v : String) (rest : List String)
    (wf wf2 : String → Bool)
    (h : wf (write_line v) = true) (h2 : wf2 (write_line v) = false) :
    seed wf (v :: rest) = .raised (v :: rest) ∧
    seed wf2 (v :: rest) = .wrote v rest := by
  constructor
  · simp [seed, h]
  · simp [seed, h2]

/-- C5 witness: at a concrete record and write oracles, the hypotheses
hold and the push-back behaves as proved. -/
theorem C5_seed_pushback_witness :
    (fun _ : String => true) (write_line "rec") = true ∧
    (fun _ : String => false) (write_line "rec") = false ∧
    (seed (fun _ => true) ["rec", "next"] = .raised ["rec", "next"] ∧
     seed (fun _ => false) ["rec", "next"] = .wrote "rec" ["next"]) :=
  ⟨rfl, rfl, C5_seed_pushback "rec" ["next"] _ _ rfl rfl⟩

/-- C8: on the first interrupt with the monitoring thread alive,
`handle_sigint` calls `kill_monitoring_thread()` without wait; that call
sets the shared running flag to False inside its `try` but restores the
saved value (True) in its `finally` and never joins, so after the handler
the flag is True, not False, and the observer's sampling-loop guard still
takes further samples. -/
theorem C8_running_flag_restored :
    (handle_sigint c8St).sigintCount = 1 ∧
    (handle_sigint c8St).monitorKill =
      some { setFalse := true, joined := false, runningAfter := true } ∧
    (handle_sigint c8St).runningAfter = true ∧
    monitorTakesSample (handle_sigint c8St).runningAfter = true :=
  ⟨rfl, rfl, rfl, rfl⟩

/-- C2: for every steady-state input record (one whose line parses as
JSON so the handler is invoked), the worker emits exactly one result per
record — `handle_item` is total, so the None-break in `main` never fires
and the printed lines are one per input — and each result object has
exactly the keys data, exit, stdout, stderr, where data is the verbatim
input line, exit is 1 when the handler raised, 0 when its return value is
not coercible to an integer and the integer value otherwise, stdout is
exactly what the handler wrote to the captured stdout, and stderr is what
it wrote to the captured stderr (followed by the traceback exactly when
it raised). -/
theorem C2_steady_state_results (cs : List HandlerCall)
    (hp : ∀ c ∈ cs, c.parseOk = true) :
    (mainSteady cs).length = cs.length ∧
    ∀ c ∈ cs,
      (handle_item c).toObj.map Prod.fst = ["data", "exit", "stdout", "stderr"] ∧
      (handle_item c).data = c.item ∧
      (c.raises = true → (handle_item c).exit = 1) ∧
      (c.raises = false → c.intCoerce = none → (handle_item c).exit = 0) ∧
      (∀ n : Int, c.raises = false → c.intCoerce = some n → (handle_item c).exit = n) ∧
      (handle_item c).stdout = c.out ∧
      (handle_item c).stderr = c.err ++ (if c.raises then c.tb else "") := by
  refine ⟨by simp [mainSteady], ?_⟩
  intro c hc
  have hpc := hp c hc
  refine ⟨rfl, ?_, ?_, ?_, ?_, ?_, ?_⟩
  · cases hr : c.raises <;> simp [handle_item, hpc, hr]
  · intro hr
    simp [handle_item, hpc, hr]
  · intro hr hn
    simp [handle_item, hpc, hr, hn]
  · intro n hr hn
    simp [handle_item, hpc, hr, hn]
  · cases hr : c.raises <;> simp [handle_item, hpc, hr]
  · cases hr : c.raises <;> simp [handle_item, hpc, hr]

/-- C2 witness: the steady-state theorem applied to a concrete three
record run (a coercible return, a raising handler, a non-coercible
return). -/
theorem C2_steady_state_results_witness :
    (∀ c ∈ c2List, c.parseOk = true) ∧
    ((mainSteady c2List).length = c2List.length ∧
     ∀ c ∈ c2List,
       (handle_item c).toObj.map Prod.fst = ["data", "exit", "stdout", "stderr"] ∧
       (handle_item c).data = c.item ∧
       (c.raises = true → (handle_item c).exit = 1) ∧
       (c.raises = false → c.intCoerce = none → (handle_item c).exit = 0) ∧
       (∀ n : Int, c.raises = false → c.intCoerce = some n → (handle_item c).exit = n) ∧
       (handle_item c).stdout = c.out ∧
       (handle_item c).stderr = c.err ++ (if c.raises then c.tb else "")) :=
  ⟨by decide, C2_steady_state_results c2List (by decide)⟩

/-- C7: every interrupt delivery bumps the per-signal received count by
exactly one; the first interrupt raises KeyboardInterrupt (the
cooperative shutdown condition) without terminating any worker; every
later one (count above 1) hard-terminates all workers; and once any
interrupt has been received, broken-stream handling returns right after
removing the dead worker and never attempts to spawn a replacement. -/
theorem C7_interrupt_escalation (st : LoopState) :
    (handle_sigint st).sigintCount = st.sigintCount + 1 ∧
    (st.sigintCount = 0 → (handle_sigint st).killed = []) ∧
    (0 < st.sigintCount →
      (handle_sigint st).killed =
        st.procs.map (fun p => Kill.mk p.2 KillMode.hard false)) ∧
    (handle_sigint st).raisedKI = true ∧
    (∀ (fn : Nat) (sp : SpawnAttempt) (wf : String → Bool) (b : BrokenOut),
      0 < st.sigintCount →
      handle_broken_stream fn sp wf st = some b → b.spawnAttempted = false) := by
  refine ⟨rfl, ?_, ?_, rfl, ?_⟩
  · intro h
    simp [handle_sigint, signal_handler_count, h]
  · intro h
    have h1 : 1 < st.sigintCount + 1 := by omega
    simp [handle_sigint, signal_handler_count, h1]
  · intro fn sp wf b h hb
    rcases hl : lookupKey fn st.procs with _ | proc
    · simp only [handle_broken_stream, hl] at hb
      exact Option.noConfusion hb
    · simp only [handle_broken_stream, hl] at hb
      rw [if_pos (Or.inl h)] at hb
      cases hb
      rfl

/-- C7 witness: with one SIGINT already received, a further delivery
terminates the worker hard, the count moves from 1 to 2, the condition
is raised, and broken-stream handling spawns no replacement. -/
theorem C7_interrupt_escalation_witness :
    (handle_sigint c7St).sigintCount = c7St.sigintCount + 1 ∧
    (handle_sigint c7St).killed =
      c7St.procs.map (fun p => Kill.mk p.2 KillMode.hard false) ∧
    (handle_sigint c7St).raisedKI = true ∧
    ∃ b, handle_broken_stream 3 c7Spawn noFail c7St = some b ∧
         b.spawnAttempted = false :=
  ⟨(C7_interrupt_escalation c7St).1,
   (C7_interrupt_escalation c7St).2.2.1 (by decide),
   (C7_interrupt_escalation c7St).2.2.2.1,
   ⟨_, rfl, (C7_interrupt_escalation c7St).2.2.2.2 3 c7Spawn noFail _ (by decide) rfl⟩⟩

/-- C9: whichever way the body of the run lifecycle ends — normally, by
KeyboardInterrupt, or by any other exception — the exit path terminates
every remaining worker hard and waits, resets the worker and stream maps
to empty, restores the swapped SIGINT handler exactly when it was
swapped, and stops and joins the monitoring thread exactly when
monitoring was on, while the body's exception, when any, propagates. -/
theorem C9_cleanup_on_every_path (st : LoopState) (outcome : BodyOutcome)
    (swap monitorOn : Bool) :
    (run st outcome swap monitorOn).killed =
      st.procs.map (fun p => Kill.mk p.2 KillMode.hard true) ∧
    (run st outcome swap monitorOn).procsAfter = [] ∧
    (run st outcome swap monitorOn).streamsAfter = [] ∧
    (run st outcome swap monitorOn).sigintRestored = swap ∧
    (run st outcome swap monitorOn).monitorKill =
      (if monitorOn then
         some { setFalse := true, joined := true, runningAfter := st.running }
       else none) ∧
    (run st outcome swap monitorOn).monitorCleared = monitorOn ∧
    (run st outcome swap monitorOn).raised =
      (match outcome with
       | .normal => none
       | .interrupted => some RunError.keyboardInterrupt
       | .error => some RunError.other) := by
  cases outcome <;> simp [run, run_finally, kill_monitoring_thread]

/-- C6: during initial seeding with n workers and no write failures, if
the source yields exactly k < n records then the workers are paired with
the records positionally — each of the first k receives exactly one
record — and exactly the n - k workers that received none are killed hard
with wait and removed from both maps; with k at least n, nothing is
removed and all n workers are seeded once. -/
theorem C6_surplus_workers (st : LoopState) (k n : Nat)
    (hn : st.procs.length = n) (hk : st.dataStream.length = k) :
    ∃ out, seed_procs noFail st = some out ∧
      out.assignments = (st.procs.map Prod.snd).zip st.dataStream ∧
      (k < n →
        out.killed =
          ((st.procs.map Prod.snd).drop k).map (fun w => Kill.mk w KillMode.hard true) ∧
        out.killed.length = n - k ∧
        out.assignments.length = k ∧
        ∀ kk ∈ out.killed, lookupKey kk.w.fd out.post.procs = none ∧
                           lookupKey kk.w.fd out.post.streams = none) ∧
      (n ≤ k →
        out.killed = [] ∧ out.post.procs = st.procs ∧
        out.post.streams = st.streams ∧ out.assignments.length = n) := by
  simp only [seed_procs, seedProcsLoop_noFail, List.length_zip, List.length_map, hn, hk]
  by_cases hkn : k < n
  · have hmin : min n k = k := Nat.min_eq_right (Nat.le_of_lt hkn)
    rw [hmin]
    have hc : 0 < n - k := by omega
    rw [if_pos hc]
    refine ⟨_, rfl, rfl, fun _ => ⟨rfl, ?_, ?_, ?_⟩, fun hnk => absurd hnk (by omega)⟩
    · simp [hn]
    · simp [hn, hk, hmin]
    · intro kk hkk
      rcases List.mem_map.mp hkk with ⟨w, hw, rfl⟩
      have hcont :
          (((st.procs.map Prod.snd).drop k).map Worker.fd).contains w.fd = true := by
        simpa using List.mem_map_of_mem Worker.fd hw
      exact ⟨lookupKey_filter_of_contains _ _ _ hcont,
             lookupKey_filter_of_contains _ _ _ hcont⟩
  · have hmin : min n k = n := Nat.min_eq_left (by omega)
    rw [hmin]
    have hc : ¬ 0 < n - n := by omega
    rw [if_neg hc]
    exact ⟨_, rfl, rfl, fun hlt => absurd hlt hkn,
           fun _ => ⟨rfl, rfl, rfl, by simp [hn, hk, hmin]⟩⟩

/-- C6 witness: three workers, one record: the first worker is seeded
with it and the two surplus workers are killed hard with wait and removed
from both maps. -/
theorem C6_surplus_workers_witness :
    c6St.procs.length = 3 ∧ c6St.dataStream.length = 1 ∧
    (∃ out, seed_procs noFail c6St = some out ∧
      out.assignments = (c6St.procs.map Prod.snd).zip c6St.dataStream ∧
      (1 < 3 →
        out.killed =
          ((c6St.procs.map Prod.snd).drop 1).map (fun w => Kill.mk w KillMode.hard true) ∧
        out.killed.length = 3 - 1 ∧
        out.assignments.length = 1 ∧
        ∀ kk ∈ out.killed, lookupKey kk.w.fd out.post.procs = none ∧
                           lookupKey kk.w.fd out.post.streams = none) ∧
      (3 ≤ 1 →
        out.killed = [] ∧ out.post.procs = c6St.procs ∧
        out.post.streams = c6St.streams ∧ out.assignments.length = 3)) :=
  ⟨rfl, rfl, C6_surplus_workers c6St 1 3 rfl rfl⟩

/-- The loop body only yields the lines it read when they are non-empty,
so an empty line is never among its yields. -/
theorem loopBody_ne_empty (wf : String → Bool) (sp : SpawnAttempt) :
    ∀ (reads : List (Nat × String)) (st : LoopState),
      "" ∉ (loopBody wf sp reads st).yields := by
  intro reads
  induction reads with
  | nil => intro st; simp [loopBody]
  | cons hd tl ih =>
      intro st
      obtain ⟨fn, rd⟩ := hd
      unfold loopBody
      cases hhs : handle_stream rd fn wf st with
      | none => exact ih st
      | some hs =>
          simp only []
          by_cases hbp : hs.raisedBP
          · simp only [if_pos hbp]
            cases hb : handle_broken_stream fn sp wf hs.post with
            | none => exact ih _
            | some b =>
                by_cases hra : b.raisedAgain
                · simp [hra]
                · simp only [if_neg hra]
                  exact ih _
          · simp only [if_neg hbp]
            by_cases hout : hs.out = ""
            · simp only [if_pos hout]
              exact ih _
            · simp only [if_neg hout]
              intro hmem
              rcases List.mem_cons.mp hmem with h | h
              · exact hout h.symm
              · exact ih _ h

/-- C10: the result generator never yields an empty line — a readline
returning the empty string (end-of-file from a dead worker) produces no
emitted result and leaves items_processed unchanged — yet handle_stream
re-seeds the worker before the emptiness is ever looked at, so the next
record is pulled from the source and written toward a worker whose stdout
is already at end-of-file. -/
theorem C10_eof_read_reseeds (st : LoopState) (fn : Nat) (w : Worker)
    (v : String) (rest : List String) (sp : SpawnAttempt)
    (hw : lookupKey fn st.procs = some w)
    (hs : st.dataStream = v :: rest) :
    handle_stream "" fn noFail st =
      some { out := "", wrote := some v, stdinClosed := false, killed := [],
             raisedBP := false, post := { st with dataStream := rest } } ∧
    loopBody noFail sp [(fn, "")] st =
      { yields := [], post := { st with dataStream := rest }, escaped := false } ∧
    (genCount (loopBody noFail sp [(fn, "")] st)).itemsProcessed =
      st.itemsProcessed ∧
    (∀ (wf : String → Bool) (sp2 : SpawnAttempt) (reads : List (Nat × String))
       (st2 : LoopState), "" ∉ (loopBody wf sp2 reads st2).yields) := by
  have h1 : handle_stream "" fn noFail st =
      some { out := "", wrote := some v, stdinClosed := false, killed := [],
             raisedBP := false, post := { st with dataStream := rest } } := by
    simp [handle_stream, hw, hs, seed, noFail]
  have h2 : loopBody noFail sp [(fn, "")] st =
      { yields := [], post := { st with dataStream := rest }, escaped := false } := by
    unfold loopBody
    rw [h1]
    simp [loopBody]
  refine ⟨h1, h2, ?_, loopBody_ne_empty⟩
  rw [h2]
  simp [genCount]

/-- C10 witness: a concrete mid-run state in which the lone worker's
stream reads end-of-file — the next record is still pulled and written,
nothing is yielded, and the processed-items counter stays at five. -/
theorem C10_eof_read_reseeds_witness :
    lookupKey 3 c10St.procs = some (Worker.mk 31 3) ∧
    c10St.dataStream = ["rec1", "rec2"] ∧
    (handle_stream "" 3 noFail c10St =
      some { out := "", wrote := some "rec1", stdinClosed := false, killed := [],
             raisedBP := false, post := { c10St with dataStream := ["rec2"] } } ∧
     loopBody noFail c10Spawn [(3, "")] c10St =
      { yields := [], post := { c10St with dataStream := ["rec2"] },
        escaped := false } ∧
     (genCount (loopBody noFail c10Spawn [(3, "")] c10St)).itemsProcessed =
       c10St.itemsProcessed ∧
     (∀ (wf : String → Bool) (sp2 : SpawnAttempt) (reads : List (Nat × String))
        (st2 : LoopState), "" ∉ (loopBody wf sp2 reads st2).yields)) :=
  ⟨rfl, rfl,
   C10_eof_read_reseeds c10St 3 (Worker.mk 31 3) "rec1" ["rec2"] c10Spawn rfl rfl⟩

end Multirunner
